import Mathlib

/-!
Verification of the session connection manager in
`src/client/src/api/gemini-api.js` (class `GeminiAPI`).

The manager is shallowly embedded: its mutable fields become a state
record, the WebSocket handlers (`onopen`, `onmessage`, `onerror`,
`onclose`) become a step function from a state and a transport event to
a new state together with the list of caller-callback invocations made
while handling the event, and the readiness promise is tracked by the
`resolveReady` flag (JS `_resolveReady !== null`) plus a count of
resolution calls.  JS exceptions are `Except.error`; JS object identity
for the readiness promise is a `Nat` id drawn from an allocation
counter.
-/

set_option maxHeartbeats 1000000

namespace GeminiApi

/-- The `data` field of a parsed inbound JSON envelope (`response.data`):
absent, a string payload, or an object payload (modelled as a flat
association list of string fields). -/
inductive JData
  | undef
  | str (s : String)
  | obj (fields : List (String × String))
deriving DecidableEq, Repr

/-- A successfully parsed inbound envelope, as the `onmessage` handler
reads it: `response.type` (absent = `undefined`), the truthiness of
`response.ready`, and `response.data`. -/
structure Response where
  type : Option String
  ready : Bool
  data : JData
deriving DecidableEq, Repr

/-- One inbound frame after the blob/text decode step: either
`JSON.parse` failed with an error message, or it produced a `Response`.
(Blob frames and text frames converge on the same parsed form in the
source, so the embedding starts from the decoded text.) -/
inductive Frame
  | malformed (errMsg : String)
  | ok (r : Response)
deriving DecidableEq, Repr

/-- A value passed to `this.onError`: either an object literal built by
the manager carrying `message`/optional `action`/`error_type` fields, or
the untouched `response.data` of a server `type:"error"` envelope, or a
plain string. -/
inductive ErrPayload
  | fields (message : String) (action : Option String) (errorType : String)
  | serverData (d : JData)
  | plainString (s : String)
deriving DecidableEq, Repr

/-- One invocation of a registered caller callback. -/
inductive HCall
  | onError (p : ErrPayload)
  | onReady
  | onConnect
  | onInterrupted (d : JData)
  | onAudioData (d : JData)
  | onTextContent (d : JData)
  | onTurnComplete
  | onFunctionCall (d : JData)
  | onFunctionResponse (d : JData)
deriving DecidableEq, Repr

/-- The mutable state the `onmessage` handler reads and writes:
`this.isSpeaking` and whether `this._resolveReady` is still non-null. -/
structure MsgState where
  isSpeaking : Bool
  resolveReady : Bool
deriving DecidableEq, Repr

/-- The `client_error` object built in the `catch` block of `onmessage`. -/
def parseErrorPayload (msg : String) : ErrPayload :=
  .fields ("Error parsing response: " ++ msg) none "client_error"

/-- The body of `ws.onmessage` for one frame: returns the new state, the
callback invocations in order, and how many times `_resolveReady` was
called (0 or 1).  Mirrors the source's dispatch order: parse failure →
`type === 'error'` → truthy `ready` (which calls `onReady`, resolves the
promise if `_resolveReady` is non-null and nulls it, then calls
`onConnect`) → the `type` chain → unknown types logged only. -/
def handleFrame (s : MsgState) (f : Frame) : MsgState × List HCall × Nat :=
  match f with
  | .malformed e => (s, [.onError (parseErrorPayload e)], 0)
  | .ok r =>
    if r.type = some "error" then
      (s, [.onError (.serverData r.data)], 0)
    else if r.ready then
      ({ s with resolveReady := false }, [.onReady, .onConnect],
        if s.resolveReady then 1 else 0)
    else if r.type = some "interrupted" then
      ({ s with isSpeaking := false }, [.onInterrupted r.data], 0)
    else if r.type = some "audio" then
      (s, [.onAudioData r.data], 0)
    else if r.type = some "text" then
      (s, [.onTextContent r.data], 0)
    else if r.type = some "turn_complete" then
      (s, [.onTurnComplete], 0)
    else if r.type = some "function_call" then
      (s, [.onFunctionCall r.data], 0)
    else if r.type = some "function_response" then
      (s, [.onFunctionResponse r.data], 0)
    else
      (s, [], 0)

/-- A transport-level event delivered to the handlers installed by
`setupWebSocket`. -/
inductive WsEvent
  | opened
  | message (f : Frame)
  | errored
  | closed (wasClean : Bool)
deriving DecidableEq, Repr

/-- The `websocket_error` object built in `ws.onerror`. -/
def wsErrorPayload : ErrPayload :=
  .fields "Connection error occurred"
    (some "Please check your internet connection and try again")
    "websocket_error"

/-- The `connection_closed` object built in `ws.onclose` for an unclean
close. -/
def closedPayload : ErrPayload :=
  .fields "Connection was interrupted"
    (some "Please refresh the page to reconnect")
    "connection_closed"

/-- Dispatch of one transport event to the handlers installed by
`setupWebSocket`: `onopen` only logs, `onmessage` is `handleFrame`,
`onerror` reports `websocket_error`, `onclose` reports
`connection_closed` only when the close was unclean. -/
def handleEvent (s : MsgState) (e : WsEvent) : MsgState × List HCall × Nat :=
  match e with
  | .opened => (s, [], 0)
  | .message f => handleFrame s f
  | .errored => (s, [.onError wsErrorPayload], 0)
  | .closed wasClean =>
    if wasClean then (s, [], 0) else (s, [.onError closedPayload], 0)

/-- Processing of a sequence of transport events in arrival order,
accumulating callback invocations and promise resolutions. -/
def processEvents (s : MsgState) (es : List WsEvent) : MsgState × List HCall × Nat :=
  match es with
  | [] => (s, [], 0)
  | e :: rest =>
    let r₁ := handleEvent s e
    let r₂ := processEvents r₁.1 rest
    (r₂.1, r₁.2.1 ++ r₂.2.1, r₁.2.2 + r₂.2.2)

/-- Processing of a sequence of inbound frames only (each wrapped as a
`message` event). -/
def processFrames (s : MsgState) (fs : List Frame) : MsgState × List HCall × Nat :=
  processEvents s (fs.map .message)

/-- Message-handler state right after `connect()` installed a fresh
readiness promise: not speaking, `_resolveReady` non-null. -/
def freshMsgState : MsgState := ⟨false, true⟩

/-- Modelled from the spec: the repository's audio-playback code (not
under `src/`) sets the manager's speaking flag to true when audio output
begins ("`speaking` becomes true when audio output begins"); nothing in
`gemini-api.js` itself ever assigns `isSpeaking = true`. -/
def beginAudioOutput (s : MsgState) : MsgState :=
  { s with isSpeaking := true }

/-- A WebSocket `readyState` value, named as in the `states` map of
`sendMessage`: 0 CONNECTING, 1 OPEN, 2 CLOSING, 3 CLOSED. -/
inductive ReadyState
  | CONNECTING
  | OPEN
  | CLOSING
  | CLOSED
deriving DecidableEq, Repr

/-- The numeric value of a `readyState`, used by the `readyState < 2`
guard in `connect()` and the `>= 2` guard in `ensureReady()`. -/
def ReadyState.toNat : ReadyState → Nat
  | .CONNECTING => 0
  | .OPEN => 1
  | .CLOSING => 2
  | .CLOSED => 3

/-- The `states` lookup table of `sendMessage`. -/
def stateName : ReadyState → String
  | .CONNECTING => "CONNECTING"
  | .OPEN => "OPEN"
  | .CLOSING => "CLOSING"
  | .CLOSED => "CLOSED"

/-- A WebSocket object: an identity (so that "no new transport is
created" is expressible) and its lifecycle state. -/
structure WSock where
  id : Nat
  readyState : ReadyState
deriving DecidableEq, Repr

/-- The fields of a `GeminiAPI` instance that the connection-lifecycle
operations touch, plus an allocation counter `nextId` supplying fresh
identities for sockets and promises. -/
structure ConnState where
  endpoint : Option String
  ws : Option WSock
  readyPromiseId : Option Nat
  resolveReady : Bool
  isSpeaking : Bool
  nextId : Nat
deriving DecidableEq, Repr

/-- The `GeminiAPI` constructor: no socket, no readiness promise,
not speaking. -/
def mkGeminiAPI (endpoint : Option String) : ConnState :=
  { endpoint := endpoint, ws := none, readyPromiseId := none,
    resolveReady := false, isSpeaking := false, nextId := 0 }

/-- The no-guard path of `connect()`: allocate a new WebSocket (which
starts in CONNECTING) and a new readiness promise, record its resolver.
Returns the new state and the returned promise's id. -/
def connectFresh (s : ConnState) : ConnState × Option Nat :=
  ({ s with ws := some ⟨s.nextId, .CONNECTING⟩,
            readyPromiseId := some (s.nextId + 1),
            resolveReady := true,
            nextId := s.nextId + 2 },
   some (s.nextId + 1))

/-- `connect()`: if a socket exists with `readyState < 2` (CONNECTING or
OPEN) return the existing `_readyPromise` and change nothing; otherwise
open a fresh socket and a fresh single-resolution readiness promise. -/
def connect (s : ConnState) : ConnState × Option Nat :=
  match s.ws with
  | some w =>
    if w.readyState.toNat < 2 then (s, s.readyPromiseId)
    else connectFresh s
  | none => connectFresh s

/-- An outbound envelope as built by the typed send wrappers:
`{ type, data? }`. -/
structure OutMsg where
  type : String
  data : Option String
deriving DecidableEq, Repr

/-- `JSON.stringify` of an outbound envelope. -/
def stringifyOut (m : OutMsg) : String :=
  match m.data with
  | some d => "\x7b\"type\":\"" ++ m.type ++ "\",\"data\":\"" ++ d ++ "\"\x7d"
  | none => "\x7b\"type\":\"" ++ m.type ++ "\"\x7d"

/-- A JS exception escaping a synchronous operation; `nullAccess p` is
the TypeError raised by reading property `p` of `null`. -/
inductive JsError
  | nullAccess (prop : String)
deriving DecidableEq, Repr

/-- An observable effect of `sendMessage`: a transmission on the wire or
an `onError` invocation. -/
inductive SendAction
  | transmit (wire : String)
  | errorCall (p : ErrPayload)
deriving DecidableEq, Repr

/-- The string passed to `onError` by `sendMessage` when the socket is
not open. -/
def notReadyMsg (st : ReadyState) : String :=
  "WebSocket is not ready (State: " ++ stateName st ++ "). Please try again."

/-- `sendMessage(message)`: reading `this.ws.readyState` throws when
`ws` is null; when OPEN the serialized envelope is transmitted; in any
other state nothing is transmitted and `onError` receives the plain
not-ready string. -/
def sendMessage (s : ConnState) (m : OutMsg) : Except JsError (List SendAction) :=
  match s.ws with
  | none => .error (.nullAccess "readyState")
  | some w =>
    if w.readyState = .OPEN then .ok [.transmit (stringifyOut m)]
    else .ok [.errorCall (.plainString (notReadyMsg w.readyState))]

/-- `sendAudioChunk(base64Audio)`. -/
def sendAudioChunk (s : ConnState) (base64Audio : String) : Except JsError (List SendAction) :=
  sendMessage s ⟨"audio", some base64Audio⟩

/-- `sendImage(base64Image)`. -/
def sendImage (s : ConnState) (base64Image : String) : Except JsError (List SendAction) :=
  sendMessage s ⟨"image", some base64Image⟩

/-- `sendEndMessage()` — the `end` envelope carries no data. -/
def sendEndMessage (s : ConnState) : Except JsError (List SendAction) :=
  sendMessage s ⟨"end", none⟩

/-- `sendTextMessage(text)`. -/
def sendTextMessage (s : ConnState) (text : String) : Except JsError (List SendAction) :=
  sendMessage s ⟨"text", some text⟩

/-- `sendSetupMessage(setupData)` — the setup payload is kept opaque as
its serialized form. -/
def sendSetupMessage (s : ConnState) (setupData : String) : Except JsError (List SendAction) :=
  sendMessage s ⟨"setup", some setupData⟩

/-- How the promise returned by `ensureConnected` settled. -/
inductive Outcome
  | resolved
  | rejectedErr
  | rejectedTimeout
deriving DecidableEq, Repr

/-- The state of one `ensureConnected` race: whether the temporary
`open`/`error` listeners are still registered on the socket, whether the
`setTimeout` timer is still pending, and whether/how the promise has
settled. -/
structure RaceState where
  openListener : Bool
  errorListener : Bool
  timerActive : Bool
  settled : Option Outcome
deriving DecidableEq, Repr

/-- The `setTimeout` delay of `ensureConnected`, in milliseconds. -/
def ensureConnectedTimeoutMs : Nat := 5000

/-- The value of an `ensureConnected()` call.  The function is `async`,
so the null-socket property access rejects the returned promise rather
than throwing past the call; on an OPEN socket it returns at once
without installing listeners; otherwise it installs both listeners and a
timer of `ensureConnectedTimeoutMs` and leaves the promise pending. -/
inductive EnsureResult
  | failedNullAccess (e : JsError)
  | immediate
  | race (rs : RaceState) (delayMs : Nat)
deriving DecidableEq, Repr

/-- `ensureConnected()`. -/
def ensureConnected (s : ConnState) : EnsureResult :=
  match s.ws with
  | none => .failedNullAccess (.nullAccess "readyState")
  | some w =>
    if w.readyState = .OPEN then .immediate
    else .race ⟨true, true, true, none⟩ ensureConnectedTimeoutMs

/-- A promise settles only once: a later settle attempt is a no-op. -/
def settleOnce (cur : Option Outcome) (o : Outcome) : Option Outcome :=
  match cur with
  | some x => some x
  | none => some o

/-- An event that can end the `ensureConnected` race: the socket's
`open` event, its `error` event, or the 5-second timer firing. -/
inductive RaceEvent
  | wsOpen
  | wsError
  | timerFire
deriving DecidableEq, Repr

/-- One step of the `ensureConnected` race.  The `onOpen`/`onError`
listeners (when still registered) clear the timer, remove both
listeners, and settle the promise; the timeout callback settles the
promise with a timeout rejection and consumes the timer but removes no
listeners. -/
def raceStep (rs : RaceState) (e : RaceEvent) : RaceState :=
  match e with
  | .wsOpen =>
    if rs.openListener then
      { openListener := false, errorListener := false, timerActive := false,
        settled := settleOnce rs.settled .resolved }
    else rs
  | .wsError =>
    if rs.errorListener then
      { openListener := false, errorListener := false, timerActive := false,
        settled := settleOnce rs.settled .rejectedErr }
    else rs
  | .timerFire =>
    if rs.timerActive then
      { rs with timerActive := false,
                settled := settleOnce rs.settled .rejectedTimeout }
    else rs

/-- The race state `ensureConnected` installs on a non-open socket. -/
def freshRace : RaceState := ⟨true, true, true, none⟩

/-- The event kind a callback invocation belongs to; `onReady` and
`onConnect` are both part of the single ready-handshake dispatch. -/
inductive HKind
  | errK
  | readyK
  | interruptedK
  | audioK
  | textK
  | turnK
  | functionCallK
  | functionResponseK
deriving DecidableEq, Repr

/-- Which event kind a callback invocation belongs to. -/
def kindOf : HCall → HKind
  | .onError _ => .errK
  | .onReady => .readyK
  | .onConnect => .readyK
  | .onInterrupted _ => .interruptedK
  | .onAudioData _ => .audioK
  | .onTextContent _ => .textK
  | .onTurnComplete => .turnK
  | .onFunctionCall _ => .functionCallK
  | .onFunctionResponse _ => .functionResponseK

/-- Whether a transport event is a handshake frame that reaches the
ready branch of `onmessage`: a parsed message with truthy `ready` that
the `type:"error"` branch did not already claim. -/
def isEffReady : WsEvent → Bool
  | .message (.ok r) => r.ready && decide (r.type ≠ some "error")
  | _ => false

/-- Whether an error payload carries the `error_type` kind tag. -/
def hasErrorType : ErrPayload → Bool
  | .fields _ _ _ => true
  | _ => false

/-- The server's handshake frame `\x7b"ready": true\x7d`. -/
def readyFrame : Frame := .ok ⟨none, true, .undef⟩

/-- The frame `\x7b"type":"text","data":"hello"\x7d`. -/
def textHelloFrame : Frame := .ok ⟨some "text", false, .str "hello"⟩

/-- The frame `\x7b"type":"turn_complete"\x7d`. -/
def turnCompleteFrame : Frame := .ok ⟨some "turn_complete", false, .undef⟩

/-- A manager state right after a first `connect()` on a fresh instance:
the socket exists and is still CONNECTING. -/
def connectingState : ConnState := (connect (mkGeminiAPI (some "ws://host"))).1

/-- Handling one transport event calls `_resolveReady` exactly when the
resolver is still installed and the event is an effective ready frame. -/
theorem handleEvent_resolutions (s : MsgState) (e : WsEvent) :
    (handleEvent s e).2.2 = if s.resolveReady && isEffReady e then 1 else 0 := by
  cases e with
  | opened => simp [handleEvent, isEffReady]
  | errored => simp [handleEvent, isEffReady]
  | closed wasClean => cases wasClean <;> simp [handleEvent, isEffReady]
  | message f =>
    cases f with
    | malformed msg => simp [handleEvent, handleFrame, isEffReady]
    | ok r =>
      simp only [handleEvent, handleFrame, isEffReady]
      by_cases h : r.type = some "error"
      · simp [h]
      · by_cases hr : r.ready
        · simp [h, hr]
        · have hr' : r.ready = false := by simpa using hr
          rw [if_neg h, if_neg hr]
          simp only [hr', Bool.false_and, Bool.and_false, Bool.false_eq_true,
            if_false]
          repeat' split
          all_goals rfl

/-- Handling one transport event leaves the resolver installed unless
the event is an effective ready frame, which uninstalls it. -/
theorem handleEvent_resolveReady (s : MsgState) (e : WsEvent) :
    (handleEvent s e).1.resolveReady = (s.resolveReady && !isEffReady e) := by
  cases e with
  | opened => simp [handleEvent, isEffReady]
  | errored => simp [handleEvent, isEffReady]
  | closed wasClean => cases wasClean <;> simp [handleEvent, isEffReady]
  | message f =>
    cases f with
    | malformed msg => simp [handleEvent, handleFrame, isEffReady]
    | ok r =>
      simp only [handleEvent, handleFrame, isEffReady]
      by_cases h : r.type = some "error"
      · simp [h]
      · by_cases hr : r.ready
        · simp [h, hr]
        · have hr' : r.ready = false := by simpa using hr
          rw [if_neg h, if_neg hr]
          simp only [hr', Bool.false_and, Bool.and_false, Bool.not_false,
            Bool.and_true]
          repeat' split
          all_goals rfl

/-- Over any event sequence, the number of `_resolveReady` calls is 1 if
the resolver was installed and an effective ready frame occurs, else 0. -/
theorem processEvents_resolutions (s : MsgState) (es : List WsEvent) :
    (processEvents s es).2.2
      = if s.resolveReady && es.any isEffReady then 1 else 0 := by
  induction es generalizing s with
  | nil => simp [processEvents]
  | cons e rest ih =>
    simp only [processEvents, List.any_cons]
    rw [handleEvent_resolutions, ih, handleEvent_resolveReady]
    by_cases hrr : s.resolveReady = true <;>
      by_cases heff : isEffReady e = true <;>
        by_cases hany : rest.any isEffReady = true <;>
          simp [hrr, heff, hany]

/-- C2: starting from the state a `connect()` call installs (resolver
present), any sequence of transport events calls the readiness resolver
exactly once when the sequence contains a frame with a truthy `ready`
field (not claimed by the `type:"error"` branch) and never otherwise; in
particular the count never exceeds one, and a sequence of transport-open
events alone never resolves it. -/
theorem c2_readiness_resolved_once (es : List WsEvent) :
    (processEvents freshMsgState es).2.2 = (if es.any isEffReady then 1 else 0)
    ∧ (processEvents freshMsgState es).2.2 ≤ 1
    ∧ ∀ n : Nat,
        (processEvents freshMsgState (List.replicate n .opened)).2.2 = 0 := by
  refine ⟨?_, ?_, ?_⟩
  · rw [processEvents_resolutions]
    simp [freshMsgState]
  · rw [processEvents_resolutions]
    split <;> simp
  · intro n
    rw [processEvents_resolutions]
    have h : (List.replicate n WsEvent.opened).any isEffReady = false := by
      induction n with
      | zero => rfl
      | succ k ih => simp [List.replicate_succ, isEffReady, ih]
    simp [h]

/-- C3: processing a single inbound frame invokes callbacks of at most
one event kind (`onReady` and `onConnect` belonging to the one ready
dispatch): the invocation list of every frame is pairwise of equal
kind. -/
theorem c3_one_handler_kind_per_frame (s : MsgState) (f : Frame) :
    (handleFrame s f).2.1.Pairwise (fun a b => kindOf a = kindOf b) := by
  cases f with
  | malformed msg => simp [handleFrame]
  | ok r =>
    simp only [handleFrame]
    repeat' split
    all_goals simp [kindOf]

/-- C4: `connect()` is idempotent while an attempt is pending: with a
socket in CONNECTING or OPEN state (`readyState < 2`) it returns the
existing readiness promise and changes nothing, and an immediate second
`connect()` after any first one creates no new transport and returns
the identical promise id the first call returned. -/
theorem c4_connect_idempotent_pending (s : ConnState) :
    (∀ w, s.ws = some w → w.readyState.toNat < 2 →
        connect s = (s, s.readyPromiseId))
    ∧ connect (connect s).1 = ((connect s).1, (connect s).2) := by
  constructor
  · intro w hw hlt
    simp [connect, hw, hlt]
  · cases hw : s.ws with
    | none =>
      have h1 : connect s = connectFresh s := by simp [connect, hw]
      rw [h1]
      simp [connect, connectFresh, ReadyState.toNat]
    | some w =>
      by_cases hlt : w.readyState.toNat < 2
      · have h1 : connect s = (s, s.readyPromiseId) := by simp [connect, hw, hlt]
        rw [h1]
        exact h1
      · have h1 : connect s = connectFresh s := by simp [connect, hw, hlt]
        rw [h1]
        simp [connect, connectFresh, ReadyState.toNat]

/-- Witness for C4: on the concrete state reached by one `connect()` on
a fresh instance (socket CONNECTING), a second `connect()` returns the
existing promise and the unchanged state. -/
theorem c4_witness :
    connect connectingState = (connectingState, connectingState.readyPromiseId) :=
  (c4_connect_idempotent_pending connectingState).1 ⟨0, .CONNECTING⟩ rfl (by decide)

/-- C10: on a fresh connection, the frames `ready:true`, `text "hello"`,
`turn_complete` produce exactly the invocations `onReady, onConnect,
onTextContent "hello", onTurnComplete` in that order with one promise
resolution, and the speaking flag is false before, between and after
them. -/
theorem c10_ready_text_turn_scenario :
    processFrames freshMsgState [readyFrame, textHelloFrame, turnCompleteFrame]
      = (⟨false, false⟩,
         [.onReady, .onConnect, .onTextContent (.str "hello"), .onTurnComplete],
         1)
    ∧ freshMsgState.isSpeaking = false
    ∧ (processFrames freshMsgState [readyFrame]).1.isSpeaking = false
    ∧ (processFrames freshMsgState [readyFrame, textHelloFrame]).1.isSpeaking
        = false := by
  refine ⟨?_, rfl, ?_, ?_⟩ <;> rfl

/-- C1 counterexample: with the speaking flag true (audio output has
begun, as modelled from the spec by `beginAudioOutput`), handling a
`turn_complete` frame leaves the flag true — the `turn_complete` branch
of `onmessage` never touches `isSpeaking`, so this event does not leave
the flag false as claimed. -/
theorem c1_counterexample :
    (handleFrame (beginAudioOutput freshMsgState) turnCompleteFrame).1.isSpeaking
      = true := by
  rfl

/-- C1 (amended): `beginAudioOutput` (spec-modelled) sets the speaking
flag true; handling an `interrupted` frame leaves the flag false; and
handling a `turn_complete` frame leaves the flag unchanged — the code
clears it only on `interrupted`, not on `turn_complete`. -/
theorem c1_speaking_flag (s : MsgState) (d : JData) :
    (beginAudioOutput s).isSpeaking = true
    ∧ (handleFrame s (.ok ⟨some "interrupted", false, d⟩)).1.isSpeaking = false
    ∧ (handleFrame s (.ok ⟨some "turn_complete", false, d⟩)).1.isSpeaking
        = s.isSpeaking := by
  exact ⟨rfl, rfl, rfl⟩

/-- C5 counterexample: before any `connect()` call (`ws` is null),
`sendTextMessage` throws the null-property TypeError past the public
operation instead of reporting via the error callback. -/
theorem c5_counterexample :
    sendTextMessage (mkGeminiAPI (some "ws://host")) "hi"
      = .error (.nullAccess "readyState") := by
  rfl

/-- C5 (amended): once a transport exists, `sendMessage` and the five
typed send wrappers never throw (failures go to the error callback);
before any transport exists they throw a null-access TypeError, while
`ensureConnected` — being async — surfaces the same null access as a
failing future rather than a thrown exception. -/
theorem c5_no_throw_with_transport (s : ConnState) (w : WSock) (m : OutMsg)
    (p : String) (h : s.ws = some w) :
    (∃ acts, sendMessage s m = .ok acts)
    ∧ (∃ acts, sendAudioChunk s p = .ok acts)
    ∧ (∃ acts, sendImage s p = .ok acts)
    ∧ (∃ acts, sendEndMessage s = .ok acts)
    ∧ (∃ acts, sendTextMessage s p = .ok acts)
    ∧ (∃ acts, sendSetupMessage s p = .ok acts)
    ∧ (∀ e, ensureConnected (mkGeminiAPI e)
          = .failedNullAccess (.nullAccess "readyState")) := by
  have hok : ∀ m' : OutMsg, ∃ acts, sendMessage s m' = .ok acts := by
    intro m'
    by_cases ho : w.readyState = .OPEN
    · exact ⟨[.transmit (stringifyOut m')],
        by simp only [sendMessage, h, if_pos ho]⟩
    · exact ⟨[.errorCall (.plainString (notReadyMsg w.readyState))],
        by simp only [sendMessage, h, if_neg ho]⟩
  exact ⟨hok m, hok _, hok _, hok _, hok _, hok _, fun e => rfl⟩

/-- Witness for C5 (amended): on the concrete post-`connect()` state the
wrappers return without throwing, and `ensureConnected` on a fresh
instance is a failing future. -/
theorem c5_witness :
    (∃ acts, sendTextMessage connectingState "hi" = .ok acts)
    ∧ ensureConnected (mkGeminiAPI none)
        = .failedNullAccess (.nullAccess "readyState") :=
  ⟨(c5_no_throw_with_transport connectingState ⟨0, .CONNECTING⟩ ⟨"text", some "hi"⟩
      "hi" rfl).2.2.2.2.1,
   (c5_no_throw_with_transport connectingState ⟨0, .CONNECTING⟩ ⟨"text", some "hi"⟩
      "hi" rfl).2.2.2.2.2.2 none⟩

/-- C6 counterexample: on a CONNECTING transport the not-ready send
rejection reaches the error handler as a plain untagged string, carrying
no `error_type` kind tag. -/
theorem c6_counterexample :
    sendMessage connectingState ⟨"text", some "hi"⟩
      = .ok [.errorCall (.plainString
          "WebSocket is not ready (State: CONNECTING). Please try again.")]
    ∧ hasErrorType (.plainString
          "WebSocket is not ready (State: CONNECTING). Please try again.")
        = false := by
  exact ⟨rfl, rfl⟩

/-- C6 (amended): the payloads the manager builds for malformed frames,
transport errors and unclean closes each carry an `error_type` kind tag
with a human-readable message/action, but the not-ready send rejection
is passed as a plain untagged string. -/
theorem c6_error_payload_tagging (s : MsgState) (cs : ConnState) (w : WSock)
    (m : OutMsg) (emsg : String) (h : cs.ws = some w) :
    hasErrorType (parseErrorPayload emsg) = true
    ∧ hasErrorType wsErrorPayload = true
    ∧ hasErrorType closedPayload = true
    ∧ (handleFrame s (.malformed emsg)).2.1 = [.onError (parseErrorPayload emsg)]
    ∧ (handleEvent s .errored).2.1 = [.onError wsErrorPayload]
    ∧ (handleEvent s (.closed false)).2.1 = [.onError closedPayload]
    ∧ (w.readyState ≠ .OPEN →
        sendMessage cs m
            = .ok [.errorCall (.plainString (notReadyMsg w.readyState))]
          ∧ hasErrorType (.plainString (notReadyMsg w.readyState)) = false) := by
  refine ⟨rfl, rfl, rfl, rfl, rfl, rfl, fun ho => ⟨?_, rfl⟩⟩
  simp only [sendMessage, h, if_neg ho]

/-- Witness for C6 (amended): instantiated on the concrete CONNECTING
state with a text envelope and a parse-error message. -/
theorem c6_witness :
    sendMessage connectingState ⟨"text", some "hi"⟩
      = .ok [.errorCall (.plainString (notReadyMsg .CONNECTING))] :=
  ((c6_error_payload_tagging freshMsgState connectingState ⟨0, .CONNECTING⟩
      ⟨"text", some "hi"⟩ "bad json" rfl).2.2.2.2.2.2 (by decide)).1

/-- C7 counterexample: after the first handshake frame has been handled,
a second frame with truthy `ready` is not a no-op — it invokes `onReady`
and `onConnect` again (the resolver call count stays 0, so only the
re-resolution is guarded). -/
theorem c7_counterexample :
    (handleFrame (handleFrame freshMsgState readyFrame).1 readyFrame).2.1
      = [.onReady, .onConnect]
    ∧ (handleFrame (handleFrame freshMsgState readyFrame).1 readyFrame).2.2
      = 0 := by
  exact ⟨rfl, rfl⟩

/-- C7 (amended): once the resolver has been cleared, a further frame
with truthy `ready` (not claimed by the `type:"error"` branch) does not
re-resolve the readiness future and does not throw — the handler is
total and the state is unchanged — but it does invoke `onReady` and
`onConnect` again. -/
theorem c7_later_ready_no_reresolve (s : MsgState) (r : Response)
    (h : s.resolveReady = false) (hr : r.ready = true)
    (he : r.type ≠ some "error") :
    handleFrame s (.ok r) = (s, [.onReady, .onConnect], 0) := by
  cases s with
  | mk sp rr =>
    cases h
    simp [handleFrame, he, hr]

/-- Witness for C7 (amended): the second handshake frame on the state
after the first one. -/
theorem c7_witness :
    handleFrame ⟨false, false⟩ (.ok ⟨none, true, .undef⟩)
      = (⟨false, false⟩, [.onReady, .onConnect], 0) :=
  c7_later_ready_no_reresolve ⟨false, false⟩ ⟨none, true, .undef⟩ rfl rfl
    (by decide)

/-- C8: with a transport present, `sendMessage` on any non-OPEN state
transmits nothing and invokes the error handler with the not-ready
string, which names the current state (the message determines the state
injectively) and tells the caller to try again; on an OPEN transport it
transmits the serialized envelope. -/
theorem c8_sendMessage_state_guard (s : ConnState) (w : WSock) (m : OutMsg)
    (h : s.ws = some w) :
    (w.readyState ≠ .OPEN →
        sendMessage s m
          = .ok [.errorCall (.plainString (notReadyMsg w.readyState))])
    ∧ (w.readyState = .OPEN →
        sendMessage s m = .ok [.transmit (stringifyOut m)])
    ∧ (∀ a b : ReadyState, notReadyMsg a = notReadyMsg b → a = b)
    ∧ (∀ st : ReadyState,
        ∃ pre, notReadyMsg st = pre ++ "Please try again.") := by
  refine ⟨fun ho => ?_, fun ho => ?_, ?_, ?_⟩
  · simp only [sendMessage, h, if_neg ho]
  · simp only [sendMessage, h, if_pos ho]
  · intro a b hab
    cases a <;> cases b <;> first | rfl | exact absurd hab (by decide)
  · intro st
    cases st with
    | CONNECTING =>
      exact ⟨"WebSocket is not ready (State: CONNECTING). ", by decide⟩
    | OPEN =>
      exact ⟨"WebSocket is not ready (State: OPEN). ", by decide⟩
    | CLOSING =>
      exact ⟨"WebSocket is not ready (State: CLOSING). ", by decide⟩
    | CLOSED =>
      exact ⟨"WebSocket is not ready (State: CLOSED). ", by decide⟩

/-- Witness for C8: on a concrete OPEN transport the text envelope is
serialized and transmitted; on the concrete CONNECTING state the audio
envelope is rejected to the error handler with the CONNECTING-naming
message. -/
theorem c8_witness :
    sendMessage ⟨some "ws://host", some ⟨0, .OPEN⟩, some 1, true, false, 2⟩
        ⟨"text", some "hi"⟩
      = .ok [.transmit (stringifyOut ⟨"text", some "hi"⟩)]
    ∧ sendMessage connectingState ⟨"audio", some "QUJD"⟩
      = .ok [.errorCall (.plainString (notReadyMsg .CONNECTING))] :=
  ⟨(c8_sendMessage_state_guard
      ⟨some "ws://host", some ⟨0, .OPEN⟩, some 1, true, false, 2⟩
      ⟨0, .OPEN⟩ ⟨"text", some "hi"⟩ rfl).2.1 rfl,
   (c8_sendMessage_state_guard connectingState ⟨0, .CONNECTING⟩
      ⟨"audio", some "QUJD"⟩ rfl).1 (by decide)⟩

/-- C9 counterexample: when the 5-second timer fires first, the promise
is rejected with the timeout outcome but both temporary listeners stay
registered — the timeout callback clears nothing, contradicting the
claim that every outcome deregisters both listeners. -/
theorem c9_counterexample :
    raceStep freshRace .timerFire
      = { openListener := true, errorListener := true, timerActive := false,
          settled := some .rejectedTimeout } := by
  rfl

/-- C9 (amended): `ensureConnected` on an OPEN transport returns
immediately with no listeners installed; otherwise it installs both
listeners and a 5000 ms timer; the open and error events each settle
the promise, deregister both listeners and clear the timer; the timer
firing settles the promise with the timeout rejection — and a timeout
rejection can only arise from the timer firing — but removes neither
listener. -/
theorem c9_ensureConnected_race (s : ConnState) (w : WSock)
    (h : s.ws = some w) :
    (w.readyState = .OPEN → ensureConnected s = .immediate)
    ∧ (w.readyState ≠ .OPEN →
        ensureConnected s = .race freshRace ensureConnectedTimeoutMs)
    ∧ ensureConnectedTimeoutMs = 5000
    ∧ raceStep freshRace .wsOpen = ⟨false, false, false, some .resolved⟩
    ∧ raceStep freshRace .wsError = ⟨false, false, false, some .rejectedErr⟩
    ∧ raceStep freshRace .timerFire
        = { freshRace with
              timerActive := false,
              settled := some .rejectedTimeout }
    ∧ (∀ rs e, (raceStep rs e).settled = some .rejectedTimeout →
          rs.settled = some .rejectedTimeout ∨ e = .timerFire) := by
  refine ⟨fun ho => ?_, fun ho => ?_, rfl, rfl, rfl, rfl, ?_⟩
  · simp only [ensureConnected, h, if_pos ho]
  · simp only [ensureConnected, h, if_neg ho]
    rfl
  · intro rs e hset
    cases e with
    | timerFire => exact Or.inr rfl
    | wsOpen =>
      left
      by_cases hl : rs.openListener
      · simp only [raceStep, if_pos hl] at hset
        cases hs : rs.settled with
        | none =>
          rw [hs] at hset
          simp [settleOnce] at hset
        | some x =>
          rw [hs] at hset
          simp only [settleOnce, Option.some.injEq] at hset
          rw [hset]
      · simp only [raceStep, if_neg hl] at hset
        exact hset
    | wsError =>
      left
      by_cases hl : rs.errorListener
      · simp only [raceStep, if_pos hl] at hset
        cases hs : rs.settled with
        | none =>
          rw [hs] at hset
          simp [settleOnce] at hset
        | some x =>
          rw [hs] at hset
          simp only [settleOnce, Option.some.injEq] at hset
          rw [hset]
      · simp only [raceStep, if_neg hl] at hset
        exact hset

/-- Witness for C9 (amended): on the concrete CONNECTING state,
`ensureConnected` installs the race with both listeners, the timer and
the 5000 ms delay. -/
theorem c9_witness :
    ensureConnected connectingState = .race freshRace ensureConnectedTimeoutMs :=
  (c9_ensureConnected_race connectingState ⟨0, .CONNECTING⟩ rfl).2.1 (by decide)

end GeminiApi
